import Mathlib

/-!
Shallow embedding of the E-Cart backend's cart and order engine.

Sources embedded here:
* `src/models/Cart.js` — cart schema, virtuals and mutation methods;
* `src/unnamed/part_000` — the order schema and its three `pre('save')` hooks
  (order-number generation, stock decrement, tracking-entry synthesis);
* `src/unnamed/part_009` — the order controllers (`createOrder`,
  `updateOrderToPaid`, `updateOrderToDelivered`, `updateOrderStatus`).

Modelling conventions:
* JavaScript numbers are modelled as `ℚ` (prices) and `ℤ` (quantities, stock,
  timestamps).  All concrete values used in the development are exactly
  representable, so no floating-point rounding behaviour is involved.
* `x || y` on optionally-present values is modelled by `jsOrQ` / `jsOrStr`,
  which also reproduce JavaScript falsiness of `0` and `""`.
* `Number.prototype.toFixed(2)` is modelled by `toFixed2 : ℚ → String`
  (round to the nearest hundredth, ties picking the larger value, then render
  with exactly two fraction digits), and the `!==` comparison between a string
  and an arbitrary JSON value is modelled on the `JSVal` sum type: values of
  different runtime types are never strictly equal.
* Mongoose documents are modelled by structures holding exactly the schema
  paths.  Writes to paths that are not in the schema (`createOrder` passes
  `shippingAddress`, the pay controller assigns `order.paymentResult`, the
  deliver controller `order.isDelivered` — none of these is a path of
  `orderSchema`) are discarded, which is mongoose's default strict-mode
  behaviour, and *reads* of such absent paths yield `undefined`, so a
  subsequent property access throws; each such spot is marked with a
  comment.
* `doc.isModified('orderStatus')` is modelled by an explicit flag computed
  at each save site: a fetched document's path is modified exactly when the
  controller assigned it a different value, while a schema default applied
  on construction is recorded in the document's `default` state, not its
  `modify` state, and does not count as modified.
* `order.save()` first runs document validation — mongoose's built-in
  validate step precedes every user `pre('save')` hook — modelled for the
  one path where it bites: `orderNumber` is `required` with no default and
  only generated inside a `pre('save')` hook, so saving a new order is
  always rejected.  The storage engine itself is not modelled beyond a
  `DB` structure of plain lists.
-/

namespace ECart

/-- A JSON/JavaScript runtime value as far as the order controller inspects
one: a number or a string.  `===`/`!==` are type-sensitive. -/
inductive JSVal where
  | num (q : ℚ)
  | str (s : String)
  deriving DecidableEq, Repr

/-- JavaScript strict equality `===` restricted to numbers and strings:
values of different runtime types are never strictly equal. -/
def jsStrictEq : JSVal → JSVal → Bool
  | .num a, .num b => a = b
  | .str a, .str b => a = b
  | _, _ => false

/-- `a || b` for an optionally present number: JavaScript treats `0` (and a
missing value) as falsy, so both select the fallback. -/
def jsOrQ : Option ℚ → ℚ → ℚ
  | some v, d => if v = 0 then d else v
  | none, d => d

/-- `a || b` for an optionally present string: JavaScript treats `""` (and a
missing value) as falsy, so both select the fallback. -/
def jsOrStr : Option String → String → String
  | some s, d => if s = "" then d else s
  | none, d => d

/-- The integer of hundredths selected by `toFixed(2)`: the integer `n`
minimising `|n / 100 - q|`, ties resolved to the larger `n`. -/
def round2 (q : ℚ) : ℤ := ⌊q * 100 + 1 / 2⌋

/-- `Number(x.toFixed(2))`: the rounded value read back as a number. -/
def fix2 (q : ℚ) : ℚ := (round2 q : ℚ) / 100

/-- Render an integer number of hundredths with exactly two fraction digits,
e.g. `4450 ↦ "44.50"`. -/
def centsToFixedString (n : ℤ) : String :=
  let sign := if n < 0 then "-" else ""
  let a := n.natAbs
  let whole := a / 100
  let frac := a % 100
  sign ++ toString whole ++ "." ++ (if frac < 10 then "0" else "") ++ toString frac

/-- `x.toFixed(2)`: a `String`, not a number. -/
def toFixed2 (q : ℚ) : String := centsToFixedString (round2 q)

/-- An error produced via `ErrorResponse(message, statusCode)`
(`src/unnamed/part_008`). -/
structure ErrRes where
  message : String
  statusCode : ℕ
  deriving DecidableEq, Repr

/-! ## Product (`src/models/Product.js`, the fields the engine reads) -/

/-- The slice of `productSchema` read by the cart and order engine: identity,
name, price, image urls (`images[i].url`) and stock.  Stock is an integer that
the engine itself may drive below zero, hence `ℤ`. -/
structure Product where
  id : ℕ
  name : String
  price : ℚ
  images : List String
  stock : ℤ
  deriving DecidableEq, Repr

/-! ## Cart (`src/models/Cart.js`) -/

/-- One entry of `cartItemSchema`: product reference plus the denormalised
name/price/image snapshot and a quantity. -/
structure CartItem where
  product : ℕ
  name : String
  price : ℚ
  image : String
  quantity : ℤ
  deriving DecidableEq, Repr

/-- `cartSchema`: owning user and the line items. -/
structure Cart where
  user : ℕ
  items : List CartItem
  deriving DecidableEq, Repr

/-- The `totalPrice` virtual: `items.reduce((t, i) => t + i.price * i.quantity, 0)`. -/
def Cart.totalPrice (c : Cart) : ℚ :=
  c.items.foldl (fun total item => total + item.price * (item.quantity : ℚ)) 0

/-- The `totalItems` virtual: `items.reduce((t, i) => t + i.quantity, 0)`. -/
def Cart.totalItems (c : Cart) : ℤ :=
  c.items.foldl (fun total item => total + item.quantity) 0

/-- `items.findIndex(i => i.product === productId)` followed by
`items[idx].quantity += quantity`: bump the first matching line item, or
report `none` when no line item matches. -/
def bumpFirst (pid : ℕ) (q : ℤ) : List CartItem → Option (List CartItem)
  | [] => none
  | i :: rest =>
    if i.product = pid then some ({ i with quantity := i.quantity + q } :: rest)
    else (bumpFirst pid q rest).map (i :: ·)

/-- `cart.addItem(productId, quantity)`: look the product up, pre-check live
stock, then either merge into the existing line item or append a new one with
the name/price/first-image snapshot captured now. -/
def Cart.addItem (products : List Product) (c : Cart) (pid : ℕ) (q : ℤ) :
    Except String Cart :=
  match products.find? (fun p => p.id = pid) with
  | none => .error "Product not found"
  | some product =>
    if product.stock < q then .error "Not enough stock available"
    else
      match bumpFirst pid q c.items with
      | some items => .ok { c with items := items }
      | none =>
        .ok { c with items := c.items ++
          [{ product := pid, name := product.name, price := product.price,
             image := (product.images.head?).getD "", quantity := q }] }

/-- `cart.removeItem(productId)`: drop every line item referencing the product. -/
def Cart.removeItem (c : Cart) (pid : ℕ) : Cart :=
  { c with items := c.items.filter (fun i => i.product ≠ pid) }

/-- `items.find(i => i.product === productId)` followed by
`item.quantity = quantity`: overwrite the quantity of the first matching
line item, leave the cart unchanged when none matches. -/
def setQtyFirst (pid : ℕ) (q : ℤ) : List CartItem → List CartItem
  | [] => []
  | i :: rest =>
    if i.product = pid then { i with quantity := q } :: rest
    else i :: setQtyFirst pid q rest

/-- `cart.updateItemQuantity(productId, quantity)`: a quantity below 1 falls
through to `removeItem`, otherwise the stored quantity is overwritten. -/
def Cart.updateItemQuantity (c : Cart) (pid : ℕ) (q : ℤ) : Cart :=
  if q < 1 then c.removeItem pid
  else { c with items := setQtyFirst pid q c.items }

/-- `cart.clearCart()`: empty the item list. -/
def Cart.clearCart (c : Cart) : Cart := { c with items := [] }

/-! ## Order schema (`src/unnamed/part_000`) -/

/-- `paymentInfoSchema`: id, status, update time, payer email. -/
structure PaymentInfo where
  id : String
  status : String
  update_time : String
  email_address : String
  deriving DecidableEq, Repr

/-- `trackingUpdateSchema`: a timestamped status event.  The date is a
millisecond timestamp. -/
structure TrackingUpdate where
  date : ℤ
  status : String
  location : String
  details : String
  deriving DecidableEq, Repr

/-- `orderItemSchema`: product reference plus the quantity and the
name/image/price snapshot. -/
structure OrderItem where
  product : ℕ
  name : String
  quantity : ℤ
  image : String
  price : ℚ
  deriving DecidableEq, Repr

/-- The paths of `orderSchema` the engine reads or writes.  Statuses are the
schema's enum strings (`"Processing"`, `"Shipped"`, …), kept as strings as in
the source.  `orderNumber = ""` models the path being unset (it has no
default, and `if (!this.orderNumber)` treats `""` and `undefined` alike).
The schema names its address block `shippingInfo`; only its `city` is ever
read (by the tracking hook), so the block is modelled as an optional city —
`none` meaning the block is absent from the document, as it is on every
order the API's `createOrder` builds (it passes the non-schema key
`shippingAddress`, which strict mode drops). -/
structure Order where
  orderNumber : String
  user : ℕ
  orderItems : List OrderItem
  shippingInfo : Option String
  paymentInfo : Option PaymentInfo
  itemsPrice : ℚ
  taxPrice : ℚ
  shippingPrice : ℚ
  totalPrice : ℚ
  orderStatus : String
  deliveredAt : Option ℤ
  trackingNumber : String
  trackingUpdates : List TrackingUpdate
  isPaid : Bool
  paidAt : Option ℤ
  deriving DecidableEq, Repr

/-- `(count + 1).toString().padStart(6, '0')`. -/
def padStart6 (n : ℕ) : String :=
  let s := toString n
  String.mk (List.replicate (6 - s.length) '0') ++ s

/-- First `pre('save')` hook: generate `orderNumber` from the current order
count when the path is unset. -/
def applyOrderNumberHook (count : ℕ) (o : Order) : Order :=
  if o.orderNumber = "" then { o with orderNumber := "ORD-" ++ padStart6 (count + 1) }
  else o

/-- `updateOne` with filter `{ _id: pid }` and update `{ $inc: { stock: -q } }`:
decrement the stock of the first product matching the id. -/
def decOne (ps : List Product) (pid : ℕ) (q : ℤ) : List Product :=
  match ps with
  | [] => []
  | p :: rest =>
    if p.id = pid then { p with stock := p.stock - q } :: rest
    else p :: decOne rest pid q

/-- `orderItems.map(item => ({ updateOne: { filter: { _id: item.product },
update: { $inc: { stock: -item.quantity } } } }))`: the batched update built
by the stock hook, as (product id, quantity) pairs. -/
def stockBulkOps (items : List OrderItem) : List (ℕ × ℤ) :=
  items.map (fun i => (i.product, i.quantity))

/-- `Product.bulkWrite(bulkOps)`: apply the decrements in order. -/
def applyBulkOps (ps : List Product) (ops : List (ℕ × ℤ)) : List Product :=
  ops.foldl (fun ps op => decOne ps op.1 op.2) ps

/-- Second `pre('save')` hook: when `isModified('orderStatus')` holds and the
status is `"Processing"`, bulk-decrement the stock of every referenced
product.  `m` is the value of `this.isModified('orderStatus')` at save time:
mongoose marks a path modified when it is assigned a value different from
the stored one; a schema default applied on construction is recorded in the
document's `default` state, not its `modify` state, so the defaulted status
of a new order does **not** count as modified.  Each caller computes `m`
accordingly. -/
def applyStockHook (m : Bool) (o : Order) (ps : List Product) : List Product :=
  if m ∧ o.orderStatus = "Processing" then
    applyBulkOps ps (stockBulkOps o.orderItems)
  else ps

/-- Third `pre('save')` hook: when `isModified('orderStatus')` holds (`m`, as
for the stock hook), unshift a synthesized tracking entry whose location
reads `this.shippingInfo.city`.  When the shipping block is absent the
property access throws a TypeError and the save is rejected — after the
stock hook's `bulkWrite` has already been awaited. -/
def applyTrackingHook (now : ℤ) (m : Bool) (o : Order) : Except ErrRes Order :=
  if m then
    match o.shippingInfo with
    | none =>
      .error { message := "TypeError: Cannot read properties of undefined (reading city)",
               statusCode := 500 }
    | some city =>
      .ok { o with trackingUpdates :=
        { date := now, status := o.orderStatus, location := city,
          details := "Order status updated to " ++ o.orderStatus } :: o.trackingUpdates }
  else .ok o

/-- `order.save()`: mongoose first runs document validation, which precedes
every user `pre('save')` hook.  `orderNumber` is `required` with no default,
so a document whose `orderNumber` is still unset is rejected here — the
order-number hook, which would generate it, never gets to run for a new
document.  A validated save then runs the three hooks in registration order;
`count` is `countDocuments()` at hook time (the document being saved is not
yet counted) and `m` is `isModified('orderStatus')`.  The stock hook's
`bulkWrite` is awaited before the tracking hook runs, so the returned
product list reflects its decrement even when the tracking hook throws and
the document itself is not saved. -/
def saveOrder (now : ℤ) (m : Bool) (count : ℕ) (ps : List Product) (o : Order) :
    List Product × Except ErrRes Order :=
  if o.orderNumber = "" then
    (ps, .error { message := "Order validation failed: orderNumber is required",
                  statusCode := 500 })
  else
    let o1 := applyOrderNumberHook count o
    let ps1 := applyStockHook m o1 ps
    (ps1, applyTrackingHook now m o1)

/-! ## Order controllers (`src/unnamed/part_009`) -/

/-- A snapshot of the backing store: the three collections the order engine
touches. -/
structure DB where
  products : List Product
  carts : List Cart
  orders : List Order
  deriving DecidableEq, Repr

/-- One entry of the request's `orderItems`: product id, quantity and the
client-declared unit price; `image` is optional (`item.image || …`). -/
structure OrderItemReq where
  product : ℕ
  quantity : ℤ
  price : ℚ
  image : Option String
  deriving DecidableEq, Repr

/-- The checkout request body.  `taxPrice` and `shippingPrice` may be absent;
the prices themselves arrive as JSON numbers.  `totalPrice` is kept as a raw
`JSVal` because the controller compares it with `!==` against a *string*
(the result of `toFixed(2)`), so its runtime type decides the comparison. -/
structure CreateOrderReq where
  orderItems : List OrderItemReq
  shippingCity : String
  itemsPrice : ℚ
  taxPrice : Option ℚ
  shippingPrice : Option ℚ
  totalPrice : JSVal
  deriving DecidableEq, Repr

/-- The `for (const item of orderItems)` loop of `createOrder`: per item,
look the product up in the bulk-fetched list, reject when its live stock is
below the ordered quantity, accumulate `calculatedItemsPrice` and build the
order item with the server-side name and image fallback.  A failed lookup
would be a `TypeError` in the source (reading `product.stock` of
`undefined`); it is unreachable once the count check has passed over a
duplicate-free product collection. -/
def buildOrderItems (products : List Product) :
    List OrderItemReq → Except ErrRes (ℚ × List OrderItem)
  | [] => .ok (0, [])
  | item :: rest =>
    match products.find? (fun p => p.id = item.product) with
    | none => .error { message := "product lookup failed", statusCode := 500 }
    | some product =>
      if product.stock < item.quantity then
        .error { message := "Not enough stock for " ++ product.name, statusCode := 400 }
      else
        match buildOrderItems products rest with
        | .error e => .error e
        | .ok (s, ds) =>
          .ok (item.price * (item.quantity : ℚ) + s,
            { product := item.product, name := product.name,
              quantity := item.quantity,
              image := jsOrStr item.image ((product.images.head?).getD ""),
              price := item.price } :: ds)

/-- `taxPrice || Number((0.15 * itemsPrice).toFixed(2))`. -/
def calculatedTaxPrice (req : CreateOrderReq) : ℚ :=
  jsOrQ req.taxPrice (fix2 (15 / 100 * req.itemsPrice))

/-- `shippingPrice || (itemsPrice > 100 ? 0 : 10)`. -/
def calculatedShippingPrice (req : CreateOrderReq) : ℚ :=
  jsOrQ req.shippingPrice (if 100 < req.itemsPrice then 0 else 10)

/-- `(itemsPrice + calculatedTaxPrice + calculatedShippingPrice).toFixed(2)`:
note the result is a `String`. -/
def calculatedTotalPriceStr (req : CreateOrderReq) : String :=
  toFixed2 (req.itemsPrice + calculatedTaxPrice req + calculatedShippingPrice req)

/-- `Cart.findOne({ user }); if (cart) await cart.clearCart()`: empty the
first cart owned by the user (the user field carries a unique index). -/
def clearFirstCart (carts : List Cart) (uid : ℕ) : List Cart :=
  match carts with
  | [] => []
  | c :: rest =>
    if c.user = uid then { c with items := [] } :: rest
    else c :: clearFirstCart rest uid

/-- `createOrder` (`src/unnamed/part_009`, lines 11–108): validate the
request, then build the order document, save it and — only when the save
succeeds — clear the requester's cart.  Every controller rejection happens
before any write, so those error branches return the store unchanged; a
failed save also leaves the store unchanged, because schema validation runs
before any hook (and the cart-clearing lines after `await order.save()` are
never reached).

Three translation notes, all verbatim from the source:
* the total check compares the *string* `calculatedTotalPrice` against the
  declared `totalPrice` with `!==` (line 72), hence `jsStrictEq` on `JSVal`;
* the document is built with a `shippingAddress` key while the schema path
  is `shippingInfo`; strict mode drops the key, so the built document's
  `shippingInfo` is `none`;
* `orderStatus` is not passed to the constructor; it arrives through the
  schema default, which mongoose does not mark as modified, so the save's
  `isModified('orderStatus')` is `false`. -/
def createOrder (now : ℤ) (uid : ℕ) (db : DB) (req : CreateOrderReq) :
    DB × Except ErrRes Order :=
  if req.orderItems.length = 0 then
    (db, .error { message := "No order items", statusCode := 400 })
  else
    let productIds := req.orderItems.map (fun i => i.product)
    let products := db.products.filter (fun p => productIds.contains p.id)
    if products.length ≠ req.orderItems.length then
      (db, .error { message := "One or more products not found", statusCode := 404 })
    else
      match buildOrderItems products req.orderItems with
      | .error e => (db, .error e)
      | .ok (calculatedItemsPrice, orderItemsWithDetails) =>
        if calculatedItemsPrice ≠ req.itemsPrice then
          (db, .error { message := "Cart items have been updated", statusCode := 400 })
        else if jsStrictEq (.str (calculatedTotalPriceStr req)) req.totalPrice = false then
          (db, .error { message := "Order total does not match", statusCode := 400 })
        else
          let newOrder : Order :=
            { orderNumber := ""  -- unset; the generating hook runs only after validation
              user := uid
              orderItems := orderItemsWithDetails
              -- the controller passes `shippingAddress`, not a schema path:
              -- strict mode drops it and `shippingInfo` stays unset
              shippingInfo := none
              paymentInfo := none
              itemsPrice := req.itemsPrice
              taxPrice := calculatedTaxPrice req
              shippingPrice := calculatedShippingPrice req
              -- the string `calculatedTotalPrice` is cast back to a number by
              -- the schema, yielding exactly the rounded sum
              totalPrice := fix2 (req.itemsPrice + calculatedTaxPrice req +
                calculatedShippingPrice req)
              orderStatus := "Processing"  -- schema default
              deliveredAt := none
              trackingNumber := ""
              trackingUpdates :=
                [{ date := now, status := "Order Placed",
                   location := "Processing Center",
                   details := "Your order has been received" }]
              isPaid := false
              paidAt := none }
          -- `isModified('orderStatus')` is false: the status is a schema default
          match saveOrder now false db.orders.length db.products newOrder with
          | (ps1, .ok saved) =>
            ({ products := ps1, carts := clearFirstCart db.carts uid,
               orders := db.orders ++ [saved] }, .ok saved)
          | (ps1, .error e) =>
            -- the rejected save throws before the cart lookup runs
            ({ products := ps1, carts := db.carts, orders := db.orders }, .error e)

/-- The authenticated caller (`req.user`): id, role and email. -/
structure Caller where
  id : ℕ
  role : String
  email : String
  deriving DecidableEq, Repr

/-- The body of `PUT /orders/:id/pay`: the payment confirmation record, every
field optional (`req.body.id || uuidv4()`, …). -/
structure PayBody where
  id : Option String
  status : Option String
  update_time : Option String
  email_address : Option String
  deriving DecidableEq, Repr

/-- `updateOrderToPaid` (`src/unnamed/part_009`, lines 142–182) applied to a
fetched order.  The caller must be the order's owner or an admin.  The
controller then sets `isPaid`/`paidAt`, builds the payment record, unshifts
one tracking entry and saves.

Translation note: the source assigns the payment record to
`order.paymentResult` (line 161), but `paymentResult` is not a path of
`orderSchema` — the schema's path is `paymentInfo` — so under mongoose's
default strict mode the assignment is silently dropped and the document's
`paymentInfo` is never written.  The build of the discarded record is kept
below so the defaulting of its fields stays visible. -/
def updateOrderToPaid (now : ℤ) (uuid nowIso : String) (caller : Caller)
    (body : PayBody) (count : ℕ) (ps : List Product) (o : Order) :
    Except ErrRes (Order × List Product) :=
  if o.user ≠ caller.id ∧ caller.role ≠ "admin" then
    .error { message := "Not authorized to update this order", statusCode := 401 }
  else
    let _paymentResult : PaymentInfo :=
      { id := jsOrStr body.id uuid
        status := jsOrStr body.status "COMPLETED"
        update_time := jsOrStr body.update_time nowIso
        email_address := jsOrStr body.email_address caller.email }
    -- `order.paymentResult = _paymentResult` writes a non-schema path: dropped.
    let o1 : Order :=
      { o with isPaid := true, paidAt := some now,
               trackingUpdates :=
                 { date := now, status := "Processing",
                   location := "Processing Center",
                   details := "Payment received. Preparing for shipment." }
                   :: o.trackingUpdates }
    -- the controller never assigns `orderStatus`, so the path is unmodified
    match saveOrder now false count ps o1 with
    | (ps1, .ok o2) => .ok (o2, ps1)
    | (_, .error e) => .error e

/-- `updateOrderToDelivered` (`src/unnamed/part_009`, lines 187–212) applied
to a fetched order (the admin gate lives in the route middleware).

The controller sets `order.isDelivered = true` (a path absent from
`orderSchema`, dropped under strict mode), `deliveredAt` and
`orderStatus = 'Delivered'` on the in-memory document, then builds the
manual tracking entry whose location reads `order.shippingAddress.city`.
`shippingAddress` is not an orderSchema path, so it is `undefined` on every
fetched document and that property access throws a TypeError before
`save()` is reached: nothing is persisted and the handler answers with the
error. -/
def updateOrderToDelivered (now : ℤ) (count : ℕ) (ps : List Product)
    (o : Order) : Except ErrRes (Order × List Product) :=
  let _o1 : Order := { o with deliveredAt := some now, orderStatus := "Delivered" }
  .error { message := "TypeError: Cannot read properties of undefined (reading city)",
           statusCode := 500 }

/-- The body of `PUT /orders/:id/status`. -/
structure StatusReq where
  status : String
  trackingNumber : Option String
  location : Option String
  details : Option String
  deriving DecidableEq, Repr

/-- `updateOrderStatus` (`src/unnamed/part_009`, lines 217–252) applied to a
fetched order: require a status (`if (!status)`, so the empty string is also
rejected), overwrite `orderStatus`, optionally overwrite `trackingNumber`,
unshift one tracking entry with defaulted location/details, and save.
`order.orderStatus = status` marks the path modified exactly when the
assigned value differs from the stored one.  When the save is rejected by
the tracking hook, the stock hook's `bulkWrite` has already committed; the
HTTP response modelled here carries only the error. -/
def updateOrderStatus (now : ℤ) (count : ℕ) (ps : List Product) (o : Order)
    (req : StatusReq) : Except ErrRes (Order × List Product) :=
  if req.status = "" then
    .error { message := "Status is required", statusCode := 400 }
  else
    let m := decide (o.orderStatus ≠ req.status)
    let o1 : Order :=
      { o with orderStatus := req.status,
               trackingNumber := jsOrStr req.trackingNumber o.trackingNumber,
               trackingUpdates :=
                 { date := now, status := req.status,
                   location := jsOrStr req.location "Processing Center",
                   details := jsOrStr req.details
                     ("Order status updated to " ++ req.status) }
                   :: o.trackingUpdates }
    match saveOrder now m count ps o1 with
    | (ps1, .ok o2) => .ok (o2, ps1)
    | (_, .error e) => .error e

/-! ## Concrete fixtures

Small store snapshots used to exercise the operations on explicit inputs;
the numbers follow the spec's worked scenario (product A: price 10.00,
stock 5; cart quantity 3; checkout 30.00 + 4.50 + 10 = 44.50). -/

/-- Product A: price 10.00, stock 5. -/
def pA : Product := { id := 1, name := "A", price := 10, images := ["a.jpg"], stock := 5 }

/-- User 7's cart holding product A with quantity 3. -/
def cart7 : Cart :=
  { user := 7,
    items := [{ product := 1, name := "A", price := 10, image := "a.jpg", quantity := 3 }] }

/-- A store with product A, user 7's cart and no orders. -/
def db0 : DB := { products := [pA], carts := [cart7], orders := [] }

/-- The spec's checkout request: itemsPrice 30.00, taxPrice 4.50,
shippingPrice 10, totalPrice 44.50 — here declared as the string
`"44.50"`, the one form the controller's `!==` comparison accepts. -/
def req0 : CreateOrderReq :=
  { orderItems := [{ product := 1, quantity := 3, price := 10, image := none }],
    shippingCity := "TC", itemsPrice := 30, taxPrice := some (9 / 2),
    shippingPrice := some 10, totalPrice := .str "44.50" }

/-- The same checkout with `totalPrice` declared as the JSON *number* 44.5,
exactly the shape the repository's own test sends. -/
def reqNum : CreateOrderReq := { req0 with totalPrice := .num (89 / 2) }

/-- The same checkout declaring `itemsPrice = 25.00` (spec's rejection
scenario). -/
def req25 : CreateOrderReq := { req0 with itemsPrice := 25 }

/-- The same checkout declaring `taxPrice = 0` and `shippingPrice = 0`. -/
def req8 : CreateOrderReq :=
  { req0 with taxPrice := some 0, shippingPrice := some 0 }

/-- An already-created order for user 7 over product A, in status
`"Processing"` with a single tracking entry and a shipping block whose city
is `"TC"` (a document seeded with its schema paths populated). -/
def o0 : Order :=
  { orderNumber := "ORD-000001", user := 7,
    orderItems := [{ product := 1, name := "A", quantity := 3, image := "a.jpg", price := 10 }],
    shippingInfo := some "TC", paymentInfo := none, itemsPrice := 30, taxPrice := 9 / 2,
    shippingPrice := 10, totalPrice := 89 / 2, orderStatus := "Processing",
    deliveredAt := none, trackingNumber := "",
    trackingUpdates := [{ date := 0, status := "Order Placed",
                          location := "Processing Center",
                          details := "Your order has been received" }],
    isPaid := false, paidAt := none }

/-- The same order after it was shipped. -/
def o0shipped : Order := { o0 with orderStatus := "Shipped" }

/-! ## Helper lemmas -/

theorem foldl_add_map_sum {α β : Type*} [AddCommMonoid β] (f : α → β) :
    ∀ (l : List α) (a : β), l.foldl (fun t i => t + f i) a = a + (l.map f).sum
  | [], a => by simp
  | x :: xs, a => by
    simp only [List.foldl_cons, List.map_cons, List.sum_cons]
    rw [foldl_add_map_sum f xs (a + f x), add_assoc]

theorem Cart.totalPrice_eq_sum (c : Cart) :
    c.totalPrice = (c.items.map fun i => i.price * (i.quantity : ℚ)).sum := by
  rw [Cart.totalPrice, foldl_add_map_sum, zero_add]

theorem Cart.totalItems_eq_sum (c : Cart) :
    c.totalItems = (c.items.map fun i => i.quantity).sum := by
  rw [Cart.totalItems, foldl_add_map_sum, zero_add]

/-! ## Cart claims -/

/-- Claim C5: after any cart mutation (add, update quantity, remove, clear),
the derived `totalPrice` equals `Σ item.price × item.quantity` over the line
items (each with its own stored snapshot price) and the derived `totalItems`
equals `Σ item.quantity`. -/
theorem claim_C5 (products : List Product) (c : Cart) (pid : ℕ) (q : ℤ) :
    ((c.removeItem pid).totalPrice =
        ((c.removeItem pid).items.map fun i => i.price * (i.quantity : ℚ)).sum ∧
      (c.removeItem pid).totalItems =
        ((c.removeItem pid).items.map fun i => i.quantity).sum) ∧
    ((c.updateItemQuantity pid q).totalPrice =
        ((c.updateItemQuantity pid q).items.map fun i => i.price * (i.quantity : ℚ)).sum ∧
      (c.updateItemQuantity pid q).totalItems =
        ((c.updateItemQuantity pid q).items.map fun i => i.quantity).sum) ∧
    (c.clearCart.totalPrice =
        (c.clearCart.items.map fun i => i.price * (i.quantity : ℚ)).sum ∧
      c.clearCart.totalItems = (c.clearCart.items.map fun i => i.quantity).sum) ∧
    (∀ c', Cart.addItem products c pid q = .ok c' →
      c'.totalPrice = (c'.items.map fun i => i.price * (i.quantity : ℚ)).sum ∧
      c'.totalItems = (c'.items.map fun i => i.quantity).sum) :=
  ⟨⟨Cart.totalPrice_eq_sum _, Cart.totalItems_eq_sum _⟩,
   ⟨Cart.totalPrice_eq_sum _, Cart.totalItems_eq_sum _⟩,
   ⟨Cart.totalPrice_eq_sum _, Cart.totalItems_eq_sum _⟩,
   fun c' _ => ⟨Cart.totalPrice_eq_sum c', Cart.totalItems_eq_sum c'⟩⟩

/-- Witness for C5 on the spec's scenario: a successful `addItem` of two more
units of product A onto cart7, whose totals then satisfy the sums. -/
theorem claim_C5_witness :
    Cart.addItem [pA] cart7 1 2 =
      .ok { user := 7, items := [{ product := 1, name := "A", price := 10,
                                   image := "a.jpg", quantity := 5 }] } ∧
    ({ user := 7, items := [{ product := 1, name := "A", price := 10,
                              image := "a.jpg", quantity := 5 }] : Cart }).totalPrice =
      (([{ product := 1, name := "A", price := 10, image := "a.jpg", quantity := 5 }] :
          List CartItem).map fun i => i.price * (i.quantity : ℚ)).sum :=
  ⟨rfl, ((claim_C5 [pA] cart7 1 2).2.2.2 _ rfl).1⟩

/-- Claim C9: `updateItemQuantity` with a quantity below 1 is literally
`removeItem`. -/
theorem claim_C9 (c : Cart) (pid : ℕ) (q : ℤ) (h : q < 1) :
    c.updateItemQuantity pid q = c.removeItem pid := by
  rw [Cart.updateItemQuantity, if_pos h]

/-- Witness for C9 at quantity 0 on cart7. -/
theorem claim_C9_witness :
    (0 : ℤ) < 1 ∧ cart7.updateItemQuantity 1 0 = cart7.removeItem 1 :=
  ⟨by decide, claim_C9 cart7 1 0 (by decide)⟩

theorem bumpFirst_of_first (pid : ℕ) (q : ℤ) :
    ∀ (pre : List CartItem) (e : CartItem) (post : List CartItem),
      (∀ i ∈ pre, i.product ≠ pid) → e.product = pid →
      bumpFirst pid q (pre ++ e :: post) =
        some (pre ++ { e with quantity := e.quantity + q } :: post)
  | [], e, post, _, he => by simp [bumpFirst, he]
  | i :: pre, e, post, hpre, he => by
    have hi : i.product ≠ pid := hpre i (List.mem_cons_self i pre)
    have ih := bumpFirst_of_first pid q pre e post
      (fun j hj => hpre j (List.mem_cons_of_mem i hj)) he
    simp [bumpFirst, if_neg hi, ih]

theorem bumpFirst_of_absent (pid : ℕ) (q : ℤ) :
    ∀ (l : List CartItem), (∀ i ∈ l, i.product ≠ pid) → bumpFirst pid q l = none
  | [], _ => rfl
  | i :: l, h => by
    have ih := bumpFirst_of_absent pid q l (fun j hj => h j (List.mem_cons_of_mem i hj))
    simp [bumpFirst, if_neg (h i (List.mem_cons_self i l)), ih]

/-- Claim C6: adding a product already in the cart merges quantities into the
single existing line item, keeping its snapshot; adding a product not in the
cart appends one new line item with the product's current name, price and
first image. -/
theorem claim_C6 (products : List Product) (c : Cart) (pid : ℕ) (p : Product)
    (q1 q2 : ℤ) (hp : products.find? (fun x => x.id = pid) = some p)
    (hstock : ¬ p.stock < q2) :
    (∀ (pre : List CartItem) (e : CartItem) (post : List CartItem),
       c.items = pre ++ e :: post → e.product = pid → e.quantity = q1 →
       (∀ i ∈ pre, i.product ≠ pid) → (∀ i ∈ post, i.product ≠ pid) →
       Cart.addItem products c pid q2 =
           .ok { c with items := pre ++ { e with quantity := q1 + q2 } :: post } ∧
         (pre ++ { e with quantity := q1 + q2 } :: post).filter
             (fun i => i.product = pid) = [{ e with quantity := q1 + q2 }]) ∧
    ((∀ i ∈ c.items, i.product ≠ pid) →
       Cart.addItem products c pid q2 =
         .ok { c with items := c.items ++
           [{ product := pid, name := p.name, price := p.price,
              image := (p.images.head?).getD "", quantity := q2 }] }) := by
  constructor
  · intro pre e post hsplit he hq1 hpre hpost
    constructor
    · simp only [Cart.addItem, hp, if_neg hstock, hsplit,
        bumpFirst_of_first pid q2 pre e post hpre he, hq1]
    · rw [List.filter_append, List.filter_cons]
      have hpref : pre.filter (fun i => i.product = pid) = [] :=
        List.filter_eq_nil_iff.2 (fun i hi => by simpa using hpre i hi)
      have hpostf : post.filter (fun i => i.product = pid) = [] :=
        List.filter_eq_nil_iff.2 (fun i hi => by simpa using hpost i hi)
      simp [hpref, hpostf, he]
  · intro habs
    simp only [Cart.addItem, hp, if_neg hstock, bumpFirst_of_absent pid q2 c.items habs]

/-- Witness for C6: merging two more units of product A into cart7 (single
line item, quantity 3 + 2, snapshot kept), and adding product A to an empty
cart of user 8 (one appended line item with A's snapshot). -/
theorem claim_C6_witness :
    Cart.addItem [pA] cart7 1 2 =
      .ok { user := 7, items := [{ product := 1, name := "A", price := 10,
                                   image := "a.jpg", quantity := 3 + 2 }] } ∧
    Cart.addItem [pA] { user := 8, items := [] } 1 2 =
      .ok { user := 8, items := [{ product := 1, name := "A", price := 10,
                                   image := "a.jpg", quantity := 2 }] } := by
  constructor
  · exact ((claim_C6 [pA] cart7 1 pA 3 2 rfl (by decide)).1 []
      { product := 1, name := "A", price := 10, image := "a.jpg", quantity := 3 } []
      rfl rfl rfl (by simp) (by simp)).1
  · exact (claim_C6 [pA] { user := 8, items := [] } 1 pA 3 2 rfl (by decide)).2
      (by simp)

/-! ## Stock decrement lemmas -/

theorem decOne_map_id (pid : ℕ) (q : ℤ) :
    ∀ ps : List Product, (decOne ps pid q).map (fun p => p.id) = ps.map (fun p => p.id)
  | [] => rfl
  | p :: rest => by
    by_cases h : p.id = pid
    · simp [decOne, if_pos h]
    · simp [decOne, if_neg h, decOne_map_id pid q rest]

theorem decOne_mem_of_ne {p : Product} {pid : ℕ} {q : ℤ} :
    ∀ {ps : List Product}, p ∈ ps → p.id ≠ pid → p ∈ decOne ps pid q
  | x :: rest, hp, hne => by
    rcases List.mem_cons.1 hp with rfl | hmem
    · rw [decOne, if_neg hne]; exact List.mem_cons_self _ _
    · rw [decOne]
      split
      · exact List.mem_cons_of_mem _ hmem
      · exact List.mem_cons_of_mem _ (decOne_mem_of_ne hmem hne)

theorem decOne_mem {p : Product} {pid : ℕ} {q : ℤ} :
    ∀ {ps : List Product}, (ps.map (fun x => x.id)).Nodup → p ∈ ps → p.id = pid →
      { p with stock := p.stock - q } ∈ decOne ps pid q
  | x :: rest, hN, hp, hid => by
    rcases List.mem_cons.1 hp with rfl | hmem
    · rw [decOne, if_pos hid]; exact List.mem_cons_self _ _
    · have hxid : x.id ≠ pid := by
        intro hx
        have : p.id ∈ rest.map (fun x => x.id) := List.mem_map_of_mem _ hmem
        rw [List.map_cons, List.nodup_cons] at hN
        exact hN.1 (by rw [hx, ← hid]; exact this)
      rw [decOne, if_neg hxid]
      exact List.mem_cons_of_mem _
        (decOne_mem (by rw [List.map_cons, List.nodup_cons] at hN; exact hN.2) hmem hid)

theorem applyBulkOps_mem_of_not_ref {p : Product} :
    ∀ {ops : List (ℕ × ℤ)} {ps : List Product}, p ∈ ps →
      (∀ op ∈ ops, op.1 ≠ p.id) → p ∈ applyBulkOps ps ops
  | [], _, hp, _ => hp
  | op :: rest, ps, hp, h => by
    rw [applyBulkOps, List.foldl_cons]
    exact applyBulkOps_mem_of_not_ref
      (decOne_mem_of_ne hp (fun hpe => h op (List.mem_cons_self _ _) hpe.symm))
      (fun o ho => h o (List.mem_cons_of_mem _ ho))

theorem applyBulkOps_mem {p : Product} {q : ℤ} :
    ∀ {ops : List (ℕ × ℤ)} {ps : List Product},
      (ps.map (fun x => x.id)).Nodup → (ops.map Prod.fst).Nodup →
      p ∈ ps → (p.id, q) ∈ ops →
      { p with stock := p.stock - q } ∈ applyBulkOps ps ops
  | (a, b) :: rest, ps, hNp, hNo, hp, hin => by
    rw [applyBulkOps, List.foldl_cons]
    rw [List.map_cons, List.nodup_cons] at hNo
    rcases List.mem_cons.1 hin with heq | hmem
    · have ha : p.id = a := congrArg Prod.fst heq
      have hb : q = b := congrArg Prod.snd heq
      subst hb
      exact applyBulkOps_mem_of_not_ref (decOne_mem hNp hp ha)
        (fun op hop hope => by
          have hope2 : op.1 = p.id := hope
          have hm : op.1 ∈ rest.map Prod.fst := List.mem_map_of_mem Prod.fst hop
          rw [hope2, ha] at hm
          exact hNo.1 hm)
    · have hane : p.id ≠ a := by
        intro h
        have : (p.id, q).1 ∈ rest.map Prod.fst := List.mem_map_of_mem Prod.fst hmem
        exact hNo.1 (by rw [← h]; exact this)
      exact applyBulkOps_mem (by rw [decOne_map_id]; exact hNp) hNo.2
        (decOne_mem_of_ne hp hane) hmem

/-! ## Save pipeline lemmas -/

@[simp] theorem applyOrderNumberHook_orderStatus (count : ℕ) (o : Order) :
    (applyOrderNumberHook count o).orderStatus = o.orderStatus := by
  rw [applyOrderNumberHook]; split <;> rfl

@[simp] theorem applyOrderNumberHook_orderItems (count : ℕ) (o : Order) :
    (applyOrderNumberHook count o).orderItems = o.orderItems := by
  rw [applyOrderNumberHook]; split <;> rfl

@[simp] theorem applyOrderNumberHook_taxPrice (count : ℕ) (o : Order) :
    (applyOrderNumberHook count o).taxPrice = o.taxPrice := by
  rw [applyOrderNumberHook]; split <;> rfl

@[simp] theorem applyOrderNumberHook_shippingPrice (count : ℕ) (o : Order) :
    (applyOrderNumberHook count o).shippingPrice = o.shippingPrice := by
  rw [applyOrderNumberHook]; split <;> rfl

@[simp] theorem applyOrderNumberHook_trackingUpdates (count : ℕ) (o : Order) :
    (applyOrderNumberHook count o).trackingUpdates = o.trackingUpdates := by
  rw [applyOrderNumberHook]; split <;> rfl

@[simp] theorem applyOrderNumberHook_shippingInfo (count : ℕ) (o : Order) :
    (applyOrderNumberHook count o).shippingInfo = o.shippingInfo := by
  rw [applyOrderNumberHook]; split <;> rfl

@[simp] theorem applyTrackingHook_false (now : ℤ) (o : Order) :
    applyTrackingHook now false o = .ok o := by
  rw [applyTrackingHook]
  simp

theorem saveOrder_unset {now : ℤ} {m : Bool} {count : ℕ} {ps : List Product}
    {o : Order} (h : o.orderNumber = "") :
    saveOrder now m count ps o =
      (ps, .error { message := "Order validation failed: orderNumber is required",
                    statusCode := 500 }) := by
  rw [saveOrder, if_pos h]

theorem saveOrder_ok {now : ℤ} {m : Bool} {count : ℕ} {ps ps1 : List Product}
    {o o2 : Order} (h : saveOrder now m count ps o = (ps1, .ok o2)) :
    o.orderNumber ≠ "" ∧
    ps1 = applyStockHook m (applyOrderNumberHook count o) ps ∧
    applyTrackingHook now m (applyOrderNumberHook count o) = .ok o2 := by
  rw [saveOrder] at h
  split at h
  · simp at h
  · next hne =>
    simp only [Prod.mk.injEq] at h
    exact ⟨hne, h.1.symm, h.2⟩

/-! ## `createOrder` facts

With the save pipeline modelled faithfully, no checkout ever persists an
order: the built document's `orderNumber` is unset and validation runs
before the hook that would generate it, so the save is always rejected, and
every branch of `createOrder` leaves the store as it was. -/

theorem createOrder_state (now : ℤ) (uid : ℕ) (db : DB) (req : CreateOrderReq) :
    (createOrder now uid db req).1 = db := by
  simp only [createOrder]
  repeat' split
  all_goals first
    | rfl
    | (rename_i heq
       rw [saveOrder_unset rfl] at heq
       simp only [Prod.mk.injEq] at heq
       obtain ⟨h1, h2⟩ := heq
       first
         | exact Except.noConfusion h2
         | (rw [← h1]))

theorem createOrder_never_ok (now : ℤ) (uid : ℕ) (db : DB) (req : CreateOrderReq)
    (ord : Order) : (createOrder now uid db req).2 ≠ .ok ord := by
  intro h
  simp only [createOrder] at h
  repeat' split at h
  all_goals first
    | exact Except.noConfusion h
    | (rename_i heq
       rw [saveOrder_unset rfl] at heq
       simp only [Prod.mk.injEq] at heq
       exact Except.noConfusion heq.2)

/-- Claim C1 concerns a code defect: a checkout that passes every controller
validation check (here the spec's 30.00 + 4.50 + 10 = 44.50 scenario,
declared so the strict total comparison succeeds) still persists nothing.
`orderNumber` is `required` but only generated inside a `pre('save')` hook,
which runs after validation, so the save is always rejected; independently,
the defaulted `orderStatus` is not `isModified`, so the stock hook could not
fire even on a validated save, and the `shippingAddress` key the controller
passes is not a schema path, so the document carries no shipping info for
the tracking hook to read.  The theorem runs the code on the scenario: the
line-price sum matches and the strict total comparison succeeds, yet the
result is the validation error and the store is unchanged — no order
persisted, no stock decremented, the cart still full. -/
theorem claim_C1_bug :
    (req0.orderItems.map fun i => i.price * (i.quantity : ℚ)).sum = req0.itemsPrice ∧
    jsStrictEq (.str (calculatedTotalPriceStr req0)) req0.totalPrice = true ∧
    (createOrder 0 7 db0 req0).2 =
      .error { message := "Order validation failed: orderNumber is required",
               statusCode := 500 } ∧
    (createOrder 0 7 db0 req0).1 = db0 := by
  have h2 : (30 : ℚ) + 9/2 + 10 = 89/2 := by norm_num
  have h1 : round2 ((89 : ℚ)/2) = 4450 := by norm_num [round2]
  have h3 : centsToFixedString 4450 = "44.50" := by decide
  have hta : calculatedTaxPrice req0 = 9/2 := by
    norm_num [calculatedTaxPrice, jsOrQ, req0]
  have hsh : calculatedShippingPrice req0 = 10 := by
    norm_num [calculatedShippingPrice, jsOrQ, req0]
  have htot : calculatedTotalPriceStr req0 = "44.50" := by
    rw [calculatedTotalPriceStr, hta, hsh, show req0.itemsPrice = (30 : ℚ) from rfl,
      h2, toFixed2, h1, h3]
  refine ⟨?_, ?_, ?_, createOrder_state 0 7 db0 req0⟩
  · norm_num [req0]
  · rw [htot]; rfl
  · have hpi : req0.orderItems =
        [{ product := 1, quantity := 3, price := 10, image := none }] := rfl
    have hitems : req0.itemsPrice = (30 : ℚ) := rfl
    have htp : req0.totalPrice = .str "44.50" := rfl
    have hdbp : db0.products = [pA] := rfl
    have hdbo : db0.orders = ([] : List Order) := rfl
    simp only [createOrder, buildOrderItems, jsOrStr, jsStrictEq, hpi, hitems, htp,
      hdbp, hdbo, htot, pA, List.find?, saveOrder]
    norm_num

/-- Claim C2: when any checkout validation step fails — empty `orderItems`,
an unresolvable product id, insufficient stock, a line-price sum differing
from the declared `itemsPrice`, or the strict total comparison failing —
the request is rejected with an error and the store is left unchanged
(no order, no stock change, cart untouched). -/
theorem claim_C2 (now : ℤ) (uid : ℕ) (db : DB) (req : CreateOrderReq)
    (hNp : (db.products.map fun p => p.id).Nodup)
    (hfail :
      req.orderItems = [] ∨
      (∃ item ∈ req.orderItems, ∀ p ∈ db.products, p.id ≠ item.product) ∨
      (∃ item ∈ req.orderItems, ∃ p ∈ db.products, p.id = item.product ∧
        p.stock < item.quantity) ∨
      (req.orderItems.map fun i => i.price * (i.quantity : ℚ)).sum ≠ req.itemsPrice ∨
      jsStrictEq (.str (calculatedTotalPriceStr req)) req.totalPrice = false) :
    (createOrder now uid db req).1 = db ∧
      ∃ e, (createOrder now uid db req).2 = .error e := by
  refine ⟨createOrder_state now uid db req, ?_⟩
  rcases hres : (createOrder now uid db req).2 with e | ord
  · exact ⟨e, rfl⟩
  · exact absurd hres (createOrder_never_ok now uid db req ord)

/-- Witness for C2 on the spec's rejection scenario: declaring
`itemsPrice = 25.00` for a 30.00 cart leaves the store unchanged and yields
an error. -/
theorem claim_C2_witness :
    (createOrder 0 7 db0 req25).1 = db0 ∧
    ∃ e, (createOrder 0 7 db0 req25).2 = .error e := by
  refine claim_C2 0 7 db0 req25 (by decide) ?_
  refine .inr (.inr (.inr (.inl ?_)))
  simp only [req25, req0]
  norm_num

/-- Claim C3 concerns a code defect: `createOrder` compares the *string*
`(itemsPrice + tax + shipping).toFixed(2)` against the declared `totalPrice`
with `!==`.  A JSON-number `totalPrice` therefore always fails the check,
even when it exactly equals `itemsPrice + tax + shipping` — here 44.5 for
the spec's own scenario (the repository's test sends a number too and
expects 201).  The theorem runs the code on that failing input: the declared
total is the number `itemsPrice + tax + shipping` itself, yet checkout is
rejected with "Order total does not match" and the store is unchanged. -/
theorem claim_C3_bug :
    reqNum.totalPrice = .num (reqNum.itemsPrice + calculatedTaxPrice reqNum +
      calculatedShippingPrice reqNum) ∧
    (createOrder 0 7 db0 reqNum).2 =
      .error { message := "Order total does not match", statusCode := 400 } ∧
    (createOrder 0 7 db0 reqNum).1 = db0 := by
  have herr : (createOrder 0 7 db0 reqNum).2 =
      .error { message := "Order total does not match", statusCode := 400 } := by
    simp only [createOrder, buildOrderItems, calculatedTotalPriceStr, calculatedTaxPrice,
      calculatedShippingPrice, jsOrQ, jsOrStr, toFixed2, jsStrictEq, db0, reqNum, req0,
      pA, fix2]
    norm_num [List.find?]
  refine ⟨?_, herr, createOrder_state 0 7 db0 reqNum⟩
  simp only [reqNum, req0, calculatedTaxPrice, calculatedShippingPrice, jsOrQ]
  norm_num

/-- Counterexample to claim C4 as stated: on an order in status
`"Processing"` with one tracking entry, a single `updateOrderStatus` to
`"Shipped"` grows `trackingUpdates` by two entries (the controller's
manual unshift plus the pre-save hook's), not by one. -/
theorem claim_C4_counterexample :
    (updateOrderStatus 1 1 [pA] o0
        { status := "Shipped", trackingNumber := none, location := none,
          details := none }).map (fun r => r.1.trackingUpdates.length) = .ok 3 ∧
    o0.trackingUpdates.length = 1 := by
  constructor <;> rfl

/-- Claim C4, amended: `updateOrderToPaid` prepends exactly one tracking
entry (it never modifies `orderStatus`, so the hook stays silent);
`updateOrderStatus` prepends one entry directly, and on a successful save
the pre-save hook prepends a second exactly when the assigned status
differs from the stored one, so the head is an entry written by that
operation; `updateOrderToDelivered` prepends nothing at all — it reads
`order.shippingAddress.city`, a path absent from the order schema, and
throws before saving. -/
theorem claim_C4_amended (now : ℤ) (uuid nowIso : String) (caller : Caller)
    (body : PayBody) (count : ℕ) (ps : List Product) (o : Order) (req : StatusReq) :
    (∀ o' ps', updateOrderToPaid now uuid nowIso caller body count ps o = .ok (o', ps') →
      o'.trackingUpdates =
        { date := now, status := "Processing", location := "Processing Center",
          details := "Payment received. Preparing for shipment." } :: o.trackingUpdates) ∧
    (updateOrderToDelivered now count ps o =
      .error { message := "TypeError: Cannot read properties of undefined (reading city)",
               statusCode := 500 }) ∧
    (∀ o' ps', updateOrderStatus now count ps o req = .ok (o', ps') →
      o'.trackingUpdates =
        if o.orderStatus = req.status then
          { date := now, status := req.status,
            location := jsOrStr req.location "Processing Center",
            details := jsOrStr req.details ("Order status updated to " ++ req.status) }
            :: o.trackingUpdates
        else
          { date := now, status := req.status, location := o.shippingInfo.getD "",
            details := "Order status updated to " ++ req.status } ::
          { date := now, status := req.status,
            location := jsOrStr req.location "Processing Center",
            details := jsOrStr req.details ("Order status updated to " ++ req.status) }
            :: o.trackingUpdates) := by
  refine ⟨?_, rfl, ?_⟩
  · intro o' ps' h
    simp only [updateOrderToPaid] at h
    split at h
    · exact Except.noConfusion h
    · split at h
      · next ps1 o2 heq =>
        obtain ⟨-, -, htr⟩ := saveOrder_ok heq
        rw [applyTrackingHook_false] at htr
        simp only [Except.ok.injEq, Prod.mk.injEq] at h htr
        rw [← h.1, ← htr]
        simp
      · exact Except.noConfusion h
  · intro o' ps' h
    simp only [updateOrderStatus] at h
    split at h
    · exact Except.noConfusion h
    · split at h
      · next ps1 o2 heq =>
        obtain ⟨-, -, htr⟩ := saveOrder_ok heq
        simp only [Except.ok.injEq, Prod.mk.injEq] at h
        by_cases hd : o.orderStatus = req.status
        · rw [if_pos hd]
          have hm : decide (o.orderStatus ≠ req.status) = false := by simp [hd]
          rw [hm, applyTrackingHook_false] at htr
          simp only [Except.ok.injEq] at htr
          rw [← h.1, ← htr]
          simp
        · rw [if_neg hd]
          have hm : decide (o.orderStatus ≠ req.status) = true := by simp [hd]
          rw [hm, applyTrackingHook] at htr
          rw [if_pos rfl] at htr
          rw [applyOrderNumberHook_shippingInfo] at htr
          dsimp only at htr
          cases hsi : o.shippingInfo with
          | none => rw [hsi] at htr; exact Except.noConfusion htr
          | some city =>
            rw [hsi] at htr
            simp only [Except.ok.injEq] at htr
            rw [← h.1, ← htr]
            simp
      · exact Except.noConfusion h

/-- Witness for the amended C4: setting status `"Shipped"` on the
`"Processing"` order `o0` (whose shipping city is `"TC"`) yields the hook
entry on top of the manual one. -/
theorem claim_C4_amended_witness :
    (updateOrderStatus 1 1 [pA] o0
        { status := "Shipped", trackingNumber := none, location := none,
          details := none }).map (fun r => r.1.trackingUpdates) =
      .ok ({ date := 1, status := "Shipped", location := "TC",
             details := "Order status updated to " ++ "Shipped" } ::
           { date := 1, status := "Shipped", location := "Processing Center",
             details := "Order status updated to " ++ "Shipped" } ::
           o0.trackingUpdates) := by
  have h := (claim_C4_amended 1 "u" "iso" { id := 7, role := "user", email := "e" }
      { id := none, status := none, update_time := none, email_address := none }
      1 [pA] o0
      { status := "Shipped", trackingNumber := none, location := none,
        details := none }).2.2 _ _ rfl
  exact Eq.trans rfl (congrArg Except.ok h)

/-- Claim C7 concerns a code defect: `updateOrderToPaid` does set
`isPaid = true` and `paidAt = now` and prepends one tracking entry, but it
assigns the supplied payment record to `order.paymentResult`, a path that is
not in `orderSchema` (the schema's path is `paymentInfo`), so strict mode
drops the write.  Running the controller as the order's owner with the full
payment record from the repository's own test leaves `paymentInfo` unset. -/
theorem claim_C7_bug :
    (updateOrderToPaid 5 "uuid-fallback" "2026-01-01T00:00:00.000Z"
        { id := 7, role := "user", email := "u@example.com" }
        { id := some "PAYMENT_ID_123", status := some "COMPLETED",
          update_time := some "2023-01-01T00:00:00.000Z",
          email_address := some "test@example.com" } 1 [pA] o0).map
      (fun r => (r.1.isPaid, r.1.paidAt, r.1.paymentInfo, r.1.trackingUpdates.length)) =
      .ok (true, some 5, none, 2) := by
  rfl

/-- Counterexample to claim C8 as stated: a checkout declaring
`taxPrice = 0` and `shippingPrice = 0` does not use those declared values —
`taxPrice || …` treats 0 as absent, so the fallbacks 4.50 and 10 are used
instead. -/
theorem claim_C8_counterexample :
    req8.taxPrice = some 0 ∧ req8.shippingPrice = some 0 ∧
    calculatedTaxPrice req8 = 9 / 2 ∧ calculatedTaxPrice req8 ≠ 0 ∧
    calculatedShippingPrice req8 = 10 ∧ calculatedShippingPrice req8 ≠ 0 := by
  refine ⟨rfl, rfl, ?_, ?_, ?_, ?_⟩ <;>
    norm_num [calculatedTaxPrice, calculatedShippingPrice, jsOrQ, req8, req0, fix2, round2]

/-- Claim C8, amended: the declared `taxPrice` is used only when provided
*and nonzero*; a declared 0 (like an absent value) falls back to
`round(itemsPrice × 0.15, 2)`.  Likewise the declared `shippingPrice` is
used only when nonzero, 0 falling back to `itemsPrice > 100 ? 0 : 10`.  On
a successful checkout the persisted order carries exactly these computed
values. -/
theorem claim_C8_amended (req : CreateOrderReq) :
    (∀ t, req.taxPrice = some t → t ≠ 0 → calculatedTaxPrice req = t) ∧
    (req.taxPrice = none ∨ req.taxPrice = some 0 →
      calculatedTaxPrice req = fix2 (15 / 100 * req.itemsPrice)) ∧
    (∀ v, req.shippingPrice = some v → v ≠ 0 → calculatedShippingPrice req = v) ∧
    (req.shippingPrice = none ∨ req.shippingPrice = some 0 →
      calculatedShippingPrice req = if 100 < req.itemsPrice then 0 else 10) ∧
    (∀ now uid db db' ord, createOrder now uid db req = (db', .ok ord) →
      ord.taxPrice = calculatedTaxPrice req ∧
      ord.shippingPrice = calculatedShippingPrice req) := by
  refine ⟨?_, ?_, ?_, ?_, ?_⟩
  · intro t ht hne
    simp [calculatedTaxPrice, ht, jsOrQ, hne]
  · rintro (ht | ht) <;> simp [calculatedTaxPrice, ht, jsOrQ]
  · intro v hv hne
    simp [calculatedShippingPrice, hv, jsOrQ, hne]
  · rintro (hv | hv) <;> simp [calculatedShippingPrice, hv, jsOrQ]
  · intro now uid db db' ord h
    exact absurd (congrArg Prod.snd h) (createOrder_never_ok now uid db req ord)

/-- Witness for the amended C8: the spec scenario declares the nonzero
4.50 / 10, and those declared values are the ones used. -/
theorem claim_C8_amended_witness :
    req0.taxPrice = some (9 / 2) ∧ ((9 : ℚ) / 2) ≠ 0 ∧
    calculatedTaxPrice req0 = 9 / 2 ∧
    req0.shippingPrice = some 10 ∧ ((10 : ℚ)) ≠ 0 ∧
    calculatedShippingPrice req0 = 10 :=
  ⟨rfl, by norm_num, (claim_C8_amended req0).1 (9 / 2) rfl (by norm_num),
   rfl, by norm_num, (claim_C8_amended req0).2.2.1 10 rfl (by norm_num)⟩

/-- Claim C10: the admin set-status operation never changes product stock
unless the new status is `"Processing"`; and whenever it modifies
`orderStatus` to `"Processing"` (re-entry from a later status included), the
pre-save hook decrements the stock of every product referenced by the
order's items by that item's quantity again.  Product ids and the order's
item product ids are assumed unique. -/
theorem claim_C10 (now : ℤ) (count : ℕ) (ps : List Product) (o : Order)
    (req : StatusReq) (o' : Order) (ps' : List Product)
    (hNp : (ps.map fun p => p.id).Nodup)
    (hNo : (o.orderItems.map fun i => i.product).Nodup)
    (h : updateOrderStatus now count ps o req = .ok (o', ps')) :
    (req.status ≠ "Processing" → ps' = ps) ∧
    (req.status = "Processing" → o.orderStatus ≠ "Processing" →
      ∀ item ∈ o.orderItems, ∀ p ∈ ps, p.id = item.product →
        { p with stock := p.stock - item.quantity } ∈ ps') := by
  simp only [updateOrderStatus] at h
  split at h
  · exact Except.noConfusion h
  · split at h
    · next ps1 o2 heq =>
      obtain ⟨-, hps, -⟩ := saveOrder_ok heq
      simp only [Except.ok.injEq, Prod.mk.injEq] at h
      obtain ⟨-, hps'⟩ := h
      constructor
      · intro hne
        rw [← hps', hps, applyStockHook,
          if_neg (fun hc => hne (by simpa using hc.2))]
      · intro hPr hprev item hitem p hp hid
        rw [← hps', hps, applyStockHook,
          if_pos ⟨by simp [hPr, hprev], by simpa using hPr⟩]
        simp only [applyOrderNumberHook_orderItems, stockBulkOps]
        have hops : ((o.orderItems.map fun i => (i.product, i.quantity)).map Prod.fst).Nodup := by
          rw [List.map_map]
          simpa [Function.comp] using hNo
        have hin : (p.id, item.quantity) ∈ o.orderItems.map fun i => (i.product, i.quantity) :=
          List.mem_map.2 ⟨item, hitem, by rw [hid]⟩
        exact applyBulkOps_mem hNp hops hp hin
    · exact Except.noConfusion h

/-- Witness for C10: re-entering `"Processing"` on the shipped order
`o0shipped` decrements product A's stock again, from 5 to 2. -/
theorem claim_C10_witness :
    o0shipped.orderStatus = "Shipped" ∧
    (updateOrderStatus 1 1 [pA] o0shipped
        { status := "Processing", trackingNumber := none, location := none,
          details := none }).map (fun r => r.2) =
      .ok [({ id := 1, name := "A", price := 10, images := ["a.jpg"], stock := 5 - 3 } : Product)] ∧
    ({ id := 1, name := "A", price := 10, images := ["a.jpg"], stock := 2 } : Product) ∈
      [({ id := 1, name := "A", price := 10, images := ["a.jpg"], stock := 5 - 3 } : Product)] := by
  have h := claim_C10 1 1 [pA] o0shipped
    { status := "Processing", trackingNumber := none, location := none, details := none }
    _ _ (by decide) (by decide) rfl
  refine ⟨rfl, rfl, ?_⟩
  exact h.2 rfl (by decide)
    { product := 1, name := "A", quantity := 3, image := "a.jpg", price := 10 }
    (by decide) pA (by decide) rfl

end ECart
